import Mathlib

/-!
Shallow embedding of `src/backend/main.py` (patent-intelligence backend).

The embedding models, faithfully to the Python source:
* `extract_keywords`       (main.py lines 47-51)
* `calculate_relevance`    (main.py lines 54-57)
* `determine_status`       (main.py lines 60-70)
* `extract_jurisdiction`   (main.py lines 85-97)
* `get_fallback_patents`   (main.py lines 100-312)
* `fetch_live_patents`     (main.py lines 315-425), with the outcome of the
  external HTTP call abstracted into a `FetchOutcome` value
* the `/analyze` endpoint  (main.py lines 428-528)

Machine reals (Python floats) are modelled as rationals; all scores in the
program are exact short decimals, so no rounding behaviour is lost.
Strings are modelled at ASCII level: `str.lower`, `str.strip` and `int()`
parsing are embedded for ASCII data, which covers every string constant in
the program and every claim checked below.
-/

namespace PatentIntel

/-- Python substring test `needle in hay` restricted to a position:
  does `needle` occur at the head of `hay`? -/
def leadMatch : List Char → List Char → Bool
  | [], _ => true
  | _ :: _, [] => false
  | n :: ns, h :: hs => n == h && leadMatch ns hs

/-- Python substring containment `needle in hay` on character lists. -/
def subMatch (needle : List Char) : List Char → Bool
  | [] => needle.isEmpty
  | h :: hs => leadMatch needle (h :: hs) || subMatch needle hs

/-- Python `needle in hay` for strings (substring containment). -/
def strContains (hay needle : String) : Bool :=
  subMatch needle.data hay.data

/-- Python `s.lower()` (ASCII): the core `String.toLower` is implemented
  by well-founded recursion, which the kernel cannot evaluate, so the
  embedding uses a char-list version throughout. -/
def pyLower (s : String) : String := String.mk (s.data.map Char.toLower)

/-- Python `s.upper()` (ASCII). -/
def pyUpper (s : String) : String := String.mk (s.data.map Char.toUpper)

/-- Python `s.strip()`. -/
def pyStrip (s : String) : String :=
  String.mk (((s.data.dropWhile Char.isWhitespace).reverse.dropWhile Char.isWhitespace).reverse)

/-- Python slicing `s[:n]`. -/
def strTake (s : String) (n : ℕ) : String := String.mk (s.data.take n)

/-- Python `s.startswith(pre)`. -/
def strStarts (s pre : String) : Bool := leadMatch pre.data s.data

/-- ASCII lowercase letter (the character class of the `[a-z]` regex). -/
def isLowerAZ (c : Char) : Bool :=
  'a' ≤ c && c ≤ 'z'

/-- Python regex word character `\w` (ASCII fragment): used for the `\b`
  boundaries of the pattern `\b[a-z]{3,}\b`. -/
def isWordCh (c : Char) : Bool :=
  c.isAlphanum || c == '_'

/-- Split a character list into its maximal runs of word characters.
  `re.findall` of `\b[a-z]{3,}\b` over a lowered string returns exactly the
  maximal word-character runs that consist only of `[a-z]` and have length
  at least 3, since no word boundary can occur inside a run. -/
def wordRuns (acc : List Char) : List Char → List (List Char)
  | [] => if acc.isEmpty then [] else [acc.reverse]
  | c :: t =>
    if isWordCh c then wordRuns (c :: acc) t
    else if acc.isEmpty then wordRuns [] t
    else acc.reverse :: wordRuns [] t

/-- The stop-word set of `extract_keywords` (main.py line 48). -/
def stop_words : List String :=
  ["the", "a", "an", "and", "or", "but", "in", "on", "at", "to", "for",
   "of", "with", "by", "from", "as", "is", "was", "are", "be", "been",
   "being", "have", "has", "had", "do", "does", "did", "will", "would",
   "should", "could", "may", "might", "must", "can", "using", "used",
   "use", "system", "method", "apparatus"]

/-- `extract_keywords` (main.py lines 47-51):
  `words = re.findall(r'\b[a-z]{3,}\b', description.lower())`,
  drop stop words, deduplicate (`list(set(...))` — the set iteration order
  is modelled by a deterministic deduplication), truncate to 10. -/
def extract_keywords (description : String) : List String :=
  (((((wordRuns [] (pyLower description).data).filter
      (fun r => 3 ≤ r.length && r.all isLowerAZ)).map
      (fun r => String.mk r)).filter
      (fun w => !(stop_words.contains w))).dedup).take 10

/-- Patent record shape used throughout the backend. `year` is `none` when
  the Python dict holds `None`; `patent_date` is `""` when absent/empty. -/
structure Patent where
  patent_number : String
  title : String
  abstract : String
  status : String
  url : String
  relevance_score : ℚ
  plain_summary : String
  patent_date : String
  year : Option Int
deriving DecidableEq

/-- The keyword-match count of `calculate_relevance` (main.py line 56):
  `sum(1 for kw in keywords if kw in text)` with
  `text = f"{title} {abstract}".lower()`. -/
def kwMatchCount (patent : Patent) (keywords : List String) : ℕ :=
  keywords.countP
    (fun kw => strContains (pyLower (patent.title ++ " " ++ patent.abstract)) kw)

/-- `calculate_relevance` (main.py lines 54-57). -/
def calculate_relevance (patent : Patent) (keywords : List String) : ℚ :=
  min ((kwMatchCount patent keywords : ℚ) / (max keywords.length 1 : ℚ)) 1

/-- Modelled from the spec words of claim C1 (not from the source): the
  score is the count of keywords occurring as a CASE-INSENSITIVE substring
  of title-plus-abstract, divided by `max(keyword count, 1)` and clamped to
  `[0,1]`.  Case-insensitive matching lowers both the record text and the
  keyword. -/
def spec_relevance (patent : Patent) (keywords : List String) : ℚ :=
  max 0 (min (((keywords.countP
    (fun kw => strContains (pyLower (patent.title ++ " " ++ patent.abstract)) (pyLower kw))) : ℚ)
      / (max keywords.length 1 : ℚ)) 1)

/-- Model of Python `int(s)` on ASCII digit strings: the digits value, or
  `none` when empty or containing a non-digit. -/
def parseDigits (ds : List Char) : Option ℕ :=
  if ds.isEmpty then none
  else if ds.all Char.isDigit then
    some (ds.foldl (fun a c => a * 10 + (c.toNat - 48)) 0)
  else none

/-- Model of Python `int(s)` for ASCII strings: optional surrounding
  whitespace, an optional sign, then at least one digit. -/
def parsePyInt (cs : List Char) : Option Int :=
  let t := ((cs.dropWhile Char.isWhitespace).reverse.dropWhile Char.isWhitespace).reverse
  match t with
  | '-' :: ds => (parseDigits ds).map (fun n => -(n : Int))
  | '+' :: ds => (parseDigits ds).map (fun n => (n : Int))
  | ds => (parseDigits ds).map (fun n => (n : Int))

/-- `determine_status` (main.py lines 60-70).  `grant_date.split("-")[0]`
  is the segment before the first `'-'`; `datetime.now().year` is passed
  explicitly as `current_year`. -/
def determine_status (patent : Patent) (current_year : Int) : String :=
  if patent.patent_date ≠ "" then
    match parsePyInt (patent.patent_date.data.takeWhile (fun c => c ≠ '-')) with
    | some year =>
      if 20 ≤ current_year - year then "Expired - Free to Use" else "Active"
    | none => "Active"
  else "Active"

/-- The year that `determine_status` inspects: present exactly when
  `patent_date` is nonempty and its leading segment parses as an integer. -/
def statusYear (patent : Patent) : Option Int :=
  if patent.patent_date ≠ "" then
    parsePyInt (patent.patent_date.data.takeWhile (fun c => c ≠ '-'))
  else none

/-- `extract_jurisdiction` (main.py lines 85-97). -/
def extract_jurisdiction (patent : Patent) : String :=
  let num := pyUpper patent.patent_number
  if strStarts num "US" then "US"
  else if strStarts num "EP" then "EP"
  else if strStarts num "WO" then "WO"
  else if strStarts num "CN" then "CN"
  else if strStarts num "JP" then "JP"
  else "US"

/-- `get_fallback_patents` (main.py lines 100-312): the curated static
  dataset of 19 records used when the live API yields nothing. -/
def get_fallback_patents : List Patent :=
 [
  ⟨"US9105950B2", "Thermal Management of Battery Packs",
    "A battery thermal management system using liquid cooling channels integrated into battery pack housing to maintain optimal operating temperature range.",
    "Expired - Free to Use", "https://patents.google.com/patent/US9105950B2", (85 : ℚ) / 100,
    "Liquid cooling system for battery packs in electric vehicles", "2015-08-11", some 2015⟩,
  ⟨"US8993136B2", "Liquid Cooling System for Battery Pack",
    "Battery pack cooling system utilizing coolant circulation through cold plates in thermal contact with battery cells.",
    "Expired - Free to Use", "https://patents.google.com/patent/US8993136B2", (82 : ℚ) / 100,
    "Cold plate cooling for EV battery thermal management", "2015-03-31", some 2015⟩,
  ⟨"US20190067721A1", "Battery Thermal Management System Using Phase Change Material",
    "Integration of phase change materials (PCM) with battery cells to absorb excess heat during high-power operation.",
    "Active", "https://patents.google.com/patent/US20190067721A1", (78 : ℚ) / 100,
    "Uses phase change materials to regulate battery temperature", "2019-02-28", some 2019⟩,
  ⟨"US10320031B2", "Battery Pack with Integrated Cooling Plate",
    "Battery module design with integrated aluminum cooling plate for efficient heat dissipation in electric vehicle applications.",
    "Active", "https://patents.google.com/patent/US10320031B2", (8 : ℚ) / 10,
    "Integrated cooling plate design for EV battery modules", "2019-06-11", some 2019⟩,
  ⟨"US9728778B2", "Thermal Management System for Electric Vehicle Battery",
    "Comprehensive thermal management system combining active cooling, heating, and thermal insulation for battery longevity.",
    "Expired - Free to Use", "https://patents.google.com/patent/US9728778B2", (88 : ℚ) / 100,
    "Complete thermal management solution for EV batteries", "2017-08-08", some 2017⟩,
  ⟨"US10396391B2", "Heat Pipe Cooling for Battery Systems",
    "Application of heat pipe technology for passive thermal management in high-density battery packs.",
    "Active", "https://patents.google.com/patent/US10396391B2", (75 : ℚ) / 100,
    "Heat pipe technology for battery cooling", "2019-08-27", some 2019⟩,
  ⟨"US9083066B2", "Battery Cooling System with Refrigerant",
    "Direct refrigerant cooling system for battery packs using evaporative cooling principles.",
    "Expired - Free to Use", "https://patents.google.com/patent/US9083066B2", (72 : ℚ) / 100,
    "Refrigerant-based cooling for battery thermal control", "2015-07-14", some 2015⟩,
  ⟨"US10686219B2", "Immersion Cooling for Battery Cells",
    "Battery cells immersed in dielectric cooling fluid for enhanced thermal management and safety.",
    "Active", "https://patents.google.com/patent/US10686219B2", (7 : ℚ) / 10,
    "Immersion cooling technology for battery cells", "2020-06-16", some 2020⟩,
  ⟨"US9947926B2", "Thermoelectric Cooling for Battery Modules",
    "Thermoelectric devices integrated into battery modules for precise temperature control.",
    "Active", "https://patents.google.com/patent/US9947926B2", (68 : ℚ) / 100,
    "Thermoelectric cooling for precise battery temperature management", "2018-04-17", some 2018⟩,
  ⟨"US8974929B2", "Air Cooling System for Battery Pack",
    "Forced air cooling system with optimized airflow channels for battery thermal management.",
    "Expired - Free to Use", "https://patents.google.com/patent/US8974929B2", (65 : ℚ) / 100,
    "Air-based cooling system for battery packs", "2015-03-10", some 2015⟩,
  ⟨"US10461348B2", "Hybrid Cooling System for Electric Vehicle Batteries",
    "Combination of liquid and air cooling for optimized thermal management across operating conditions.",
    "Active", "https://patents.google.com/patent/US10461348B2", (83 : ℚ) / 100,
    "Hybrid liquid and air cooling for EV batteries", "2019-10-29", some 2019⟩,
  ⟨"US9236608B2", "Battery Thermal Interface Materials",
    "Advanced thermal interface materials for improved heat transfer between battery cells and cooling systems.",
    "Expired - Free to Use", "https://patents.google.com/patent/US9236608B2", (62 : ℚ) / 100,
    "Thermal interface materials for battery heat dissipation", "2016-01-12", some 2016⟩,
  ⟨"US10714724B2", "Smart Thermal Management with Predictive Control",
    "AI-driven thermal management system that predicts battery heating and preemptively adjusts cooling.",
    "Active", "https://patents.google.com/patent/US10714724B2", (77 : ℚ) / 100,
    "AI-based predictive thermal management for batteries", "2020-07-14", some 2020⟩,
  ⟨"US9166232B2", "Microchannel Cooling for Battery Systems",
    "Microchannel heat exchangers integrated into battery pack structure for high-efficiency cooling.",
    "Expired - Free to Use", "https://patents.google.com/patent/US9166232B2", (74 : ℚ) / 100,
    "Microchannel technology for efficient battery cooling", "2015-10-20", some 2015⟩,
  ⟨"US10593991B2", "Graphene-Enhanced Thermal Conductors for Batteries",
    "Use of graphene-based materials to enhance thermal conductivity in battery thermal management systems.",
    "Active", "https://patents.google.com/patent/US10593991B2", (69 : ℚ) / 100,
    "Graphene materials for improved battery heat transfer", "2020-03-17", some 2020⟩,
  ⟨"US9318772B2", "Battery Pack Thermal Monitoring System",
    "Distributed temperature sensing network for real-time thermal monitoring of battery cells.",
    "Expired - Free to Use", "https://patents.google.com/patent/US9318772B2", (66 : ℚ) / 100,
    "Temperature monitoring system for battery safety", "2016-04-19", some 2016⟩,
  ⟨"US10840535B2", "Modular Battery Cooling Architecture",
    "Scalable modular cooling system design for flexible battery pack configurations.",
    "Active", "https://patents.google.com/patent/US10840535B2", (71 : ℚ) / 100,
    "Modular cooling design for scalable battery systems", "2020-11-17", some 2020⟩,
  ⟨"US9263721B2", "Thermal Runaway Prevention System",
    "Active cooling system designed to prevent thermal runaway propagation in battery packs.",
    "Expired - Free to Use", "https://patents.google.com/patent/US9263721B2", (79 : ℚ) / 100,
    "Safety system to prevent battery thermal runaway", "2016-02-16", some 2016⟩,
  ⟨"US10566616B2", "Lightweight Cooling Plate for EV Batteries",
    "Optimized lightweight aluminum cooling plate design for weight-sensitive electric vehicle applications.",
    "Active", "https://patents.google.com/patent/US10566616B2", (76 : ℚ) / 100,
    "Lightweight cooling solution for electric vehicles", "2020-02-18", some 2020⟩
 ]

/-- One record of the Lens.org response as consumed by
  `fetch_live_patents` (main.py lines 375-416).  Each field is `none` when
  the corresponding dict entry is absent or `None`;
  `biblio_publication_date` is the nested `biblio.publication_date`. -/
structure LensRec where
  publication_number : Option String
  jurisdiction : Option String
  title : Option String
  abstract : Option String
  lens_id : Option String
  biblio_publication_date : Option String
deriving DecidableEq

/-- The inline 20-year status heuristic of the live path
  (main.py lines 400-403): `if year and (datetime.now().year - year) >= 20`.
  Python truthiness makes a parsed year of `0` behave as missing. -/
def liveStatus (year : Option Int) (current_year : Int) : String :=
  match year with
  | some y => if y ≠ 0 ∧ 20 ≤ current_year - y then "Expired - Free to Use" else "Active"
  | none => "Active"

/-- Python `s.replace(" ", "")`. -/
def removeSpaces (s : String) : String :=
  String.mk (s.data.filter (fun c => c ≠ ' '))

/-- Python `a or b` on strings: `b` when `a` is empty. -/
def orElseStr (a b : String) : String :=
  if a = "" then b else a

/-- Mapping of one Lens.org hit into the local record schema
  (main.py lines 375-416). `kws` are the keywords already extracted from
  the query (line 373) and `current_year` is `datetime.now().year`. -/
def mapLensRec (kws : List String) (current_year : Int) (r : LensRec) : Patent :=
  let pub_num := r.publication_number.getD ""
  let juris := pyUpper (r.jurisdiction.getD "")
  let title := pyStrip (r.title.getD "")
  let abstract := pyStrip (r.abstract.getD "")
  let pub_date := r.biblio_publication_date.getD ""
  let year : Option Int :=
    if pub_date ≠ "" then parsePyInt (strTake pub_date 4).data else none
  let pn := removeSpaces pub_num
  let lens_id := r.lens_id.getD ""
  let gp_link := if pn ≠ "" then "https://patents.google.com/patent/" ++ pn else ""
  let lens_link := if lens_id ≠ "" then "https://www.lens.org/lens/patent/" ++ lens_id else ""
  let url_link := orElseStr (orElseStr gp_link lens_link) "https://www.lens.org/"
  { patent_number :=
      orElseStr pn (if lens_id ≠ "" then juris ++ lens_id else "Unknown")
    title := orElseStr title "Untitled patent"
    abstract := if abstract ≠ "" then strTake abstract 900 else "No abstract available."
    status := liveStatus year current_year
    url := url_link
    relevance_score :=
      calculate_relevance
        ⟨"", title, abstract, "", "", 0, "", "", none⟩ kws
    plain_summary :=
      if title ≠ "" then "Patent covering " ++ pyLower title else "Patent result"
    patent_date := pub_date
    year := year }

/-- Outcome of the external Lens.org HTTP call, abstracting lines 320-370:
  an exception, a non-200 status, a response whose `data`/`results` field
  is not a list, or a well-formed hit list (possibly empty). -/
inductive FetchOutcome
  | error
  | non200
  | malformed
  | ok (recs : List LensRec)
deriving DecidableEq

/-- `fetch_live_patents` (main.py lines 315-425).  Every failure outcome
  returns `[]` (the function never raises); a well-formed response is
  mapped hit-by-hit through `mapLensRec` with the keywords of the query. -/
def fetch_live_patents (outcome : FetchOutcome) (query : String)
    (current_year : Int) : List Patent :=
  match outcome with
  | .error => []
  | .non200 => []
  | .malformed => []
  | .ok recs => recs.map (mapLensRec (extract_keywords query) current_year)

/-- A record enriched with the two helper fields added by `/analyze`
  (main.py lines 466-472): `_jurisdiction` and `_year`. -/
structure EnrichedPatent extends Patent where
  jurHelper : String
  yearHelper : Option Int
deriving DecidableEq

/-- The enrichment step (main.py lines 467-472). -/
def enrich (p : Patent) : EnrichedPatent :=
  { toPatent := p
    jurHelper := extract_jurisdiction p
    yearHelper := p.year }

/-- Status filter (main.py lines 476-479). -/
def statusFiltered (filter : String) (l : List EnrichedPatent) : List EnrichedPatent :=
  if filter = "expired" then l.filter (fun p => strContains p.status "Expired")
  else if filter = "active" then l.filter (fun p => strContains p.status "Active")
  else l

/-- Jurisdiction filter (main.py lines 481-483); `if jurisdiction:` is the
  Python truthiness test on the raw parameter. -/
def jurisdictionFiltered (jurisdiction : String) (l : List EnrichedPatent) :
    List EnrichedPatent :=
  if jurisdiction = "" then l
  else l.filter (fun p => p.jurHelper == pyUpper (pyStrip jurisdiction))

/-- Minimum-year filter (main.py lines 485-486); records with unknown
  `_year` are dropped when the filter is active. -/
def yearFiltered (min_year : ℕ) (l : List EnrichedPatent) : List EnrichedPatent :=
  if 0 < min_year then
    l.filter (fun p =>
      match p.yearHelper with
      | some y => decide ((min_year : Int) ≤ y)
      | none => false)
  else l

/-- Minimum-relevance filter (main.py line 488). -/
def relevanceFiltered (min_relevance : ℚ) (l : List EnrichedPatent) :
    List EnrichedPatent :=
  l.filter (fun p => decide (min_relevance ≤ p.relevance_score))

/-- The request body of `/analyze` (main.py lines 30-32). -/
structure ProjectRequest where
  description : String
  filter : String
deriving DecidableEq

/-- The query parameters of `/analyze` (main.py lines 431-436).  FastAPI
  validates `1 ≤ limit ≤ 100`, `0 ≤ offset`, `0 ≤ min_relevance ≤ 1`,
  `0 ≤ min_year`; naturals and a rational carry the nonnegativity. -/
structure Params where
  limit : ℕ
  offset : ℕ
  min_relevance : ℚ
  sort : String
  min_year : ℕ
  jurisdiction : String
deriving DecidableEq

/-- The filter cascade of `/analyze` (main.py lines 474-488), from the
  enrichment of `source` up to but excluding the sort. -/
def filteredPats (req : ProjectRequest) (pr : Params) (source : List Patent) :
    List EnrichedPatent :=
  relevanceFiltered pr.min_relevance
    (yearFiltered pr.min_year
      (jurisdictionFiltered pr.jurisdiction
        (statusFiltered req.filter (source.map enrich))))

/-- The sort step (main.py lines 491-498): Python `list.sort` is stable;
  it is modelled by the stable `List.mergeSort`.  An unrecognised sort key
  leaves the list unchanged. -/
def sortStep (sort : String) (l : List EnrichedPatent) : List EnrichedPatent :=
  if sort = "relevance_desc" then
    l.mergeSort (fun a b => decide (b.relevance_score ≤ a.relevance_score))
  else if sort = "relevance_asc" then
    l.mergeSort (fun a b => decide (a.relevance_score ≤ b.relevance_score))
  else if sort = "title_asc" then
    l.mergeSort (fun a b => decide (pyLower a.title ≤ pyLower b.title))
  else if sort = "title_desc" then
    l.mergeSort (fun a b => decide (pyLower b.title ≤ pyLower a.title))
  else l

/-- A JSON-ish value in a returned patent dict. -/
inductive Val
  | vs (s : String)
  | vq (q : ℚ)
  | vi (n : Int)
  | vnone
deriving DecidableEq

/-- Python `None`-able int field. -/
def optIntVal : Option Int → Val
  | some n => .vi n
  | none => .vnone

/-- A Python dict with string keys, in insertion order. -/
abbrev Dict := List (String × Val)

/-- The dict carried for one enriched record inside `/analyze`, in the
  key insertion order of the source (records are built by
  `get_fallback_patents`/`fetch_live_patents` and enriched at
  lines 466-472). -/
def toDict (e : EnrichedPatent) : Dict :=
  [("patent_number", .vs e.patent_number),
   ("title", .vs e.title),
   ("abstract", .vs e.abstract),
   ("status", .vs e.status),
   ("url", .vs e.url),
   ("relevance_score", .vq e.relevance_score),
   ("plain_summary", .vs e.plain_summary),
   ("patent_date", .vs e.patent_date),
   ("year", optIntVal e.year),
   ("_jurisdiction", .vs e.jurHelper),
   ("_year", optIntVal e.yearHelper)]

/-- Python `dict.pop(k, None)`: drop the entry with key `k`. -/
def popKey (d : Dict) (k : String) : Dict :=
  d.eraseP (fun kv => kv.1 == k)

/-- `strip_helpers` (main.py lines 510-516): pops `_jurisdiction`,
  `_year`, `patent_date` and `year` from the record dict. -/
def strip_helpers (d : Dict) : Dict :=
  popKey (popKey (popKey (popKey d "_jurisdiction") "_year") "patent_date") "year"

/-- Thousands grouping on a REVERSED digit list: a comma after every
  group of three digits that is followed by more digits. -/
def commaGroup : List Char → List Char
  | a :: b :: c :: d :: t => a :: b :: c :: ',' :: commaGroup (d :: t)
  | l => l

/-- Python `f"{n:,}"` for a natural number: decimal digits with a comma
  between three-digit groups. -/
def commaFormat (n : ℕ) : String :=
  String.mk (commaGroup (Nat.repr n).data.reverse).reverse

/-- The `pagination` object of the `/analyze` response. -/
structure Pagination where
  limit : ℕ
  offset : ℕ
  next_offset : Option ℕ
  prev_offset : Option ℕ
  total : ℕ
deriving DecidableEq

/-- The `applied_filters` object of the `/analyze` response. -/
structure AppliedFilters where
  status : String
  min_relevance : ℚ
  sort : String
  min_year : ℕ
  jurisdiction : String
deriving DecidableEq

/-- The `/analyze` response envelope (main.py lines 456-464 and 520-528). -/
structure AnalyzeResponse where
  project_description : String
  key_concepts : List String
  total_patents_found : ℕ
  estimated_savings : String
  patents : List Dict
  pagination : Pagination
  applied_filters : AppliedFilters
deriving DecidableEq

/-- Fallback rescoring (main.py lines 447-451): every static record gets
  its relevance recomputed against the current query keywords. -/
def rescoreFallback (description : String) : List Patent :=
  get_fallback_patents.map
    (fun p => { p with relevance_score := calculate_relevance p (extract_keywords description) })

/-- Source selection of `/analyze` (main.py lines 442-451): the live
  result if nonempty, otherwise the rescored fallback list. -/
def analyzeSource (req : ProjectRequest) (live : List Patent) : List Patent :=
  if live.isEmpty then rescoreFallback req.description else live

/-- The early-return envelope for an empty source (main.py lines 455-464).
  It is dead code in this embedding — `analyzeSource` is never empty
  because the fallback list has 19 records — but is kept for fidelity. -/
def emptyEnvelope (req : ProjectRequest) (pr : Params) : AnalyzeResponse :=
  { project_description := req.description
    key_concepts := extract_keywords req.description
    total_patents_found := 0
    estimated_savings := "£0"
    patents := []
    pagination := ⟨pr.limit, pr.offset, none, none, 0⟩
    applied_filters := ⟨req.filter, pr.min_relevance, pr.sort, pr.min_year,
      if pr.jurisdiction = "" then "" else pyUpper pr.jurisdiction⟩ }

/-- The main branch of `/analyze` (main.py lines 466-528). -/
def analyzeMain (req : ProjectRequest) (pr : Params) (source : List Patent) :
    AnalyzeResponse :=
  let pats := sortStep pr.sort (filteredPats req pr source)
  let total := pats.length
  let paged := (pats.drop pr.offset).take pr.limit
  let expired_count := pats.countP (fun p => strContains p.status "Expired")
  { project_description := req.description
    key_concepts := extract_keywords req.description
    total_patents_found := total
    estimated_savings := "£" ++ commaFormat (expired_count * 25000)
    patents := paged.map (fun p => strip_helpers (toDict p))
    pagination := ⟨pr.limit, pr.offset,
      (if pr.offset + pr.limit < total then some (pr.offset + pr.limit) else none),
      (if pr.limit ≤ pr.offset then some (pr.offset - pr.limit) else none),
      total⟩
    applied_filters := ⟨req.filter, pr.min_relevance, pr.sort, pr.min_year,
      if pr.jurisdiction = "" then "" else pyUpper pr.jurisdiction⟩ }

/-- The `/analyze` endpoint (main.py lines 428-528), with the fetched live
  records passed in as `live`. -/
def analyze (req : ProjectRequest) (pr : Params) (live : List Patent) :
    AnalyzeResponse :=
  let source := analyzeSource req live
  if source.isEmpty then emptyEnvelope req pr else analyzeMain req pr source

/-- The paginated slice of enriched records underlying the `patents` field
  of the response (main.py line 502). -/
def pagedRecords (req : ProjectRequest) (pr : Params) (live : List Patent) :
    List EnrichedPatent :=
  ((sortStep pr.sort (filteredPats req pr (analyzeSource req live))).drop pr.offset).take pr.limit

/-- A concrete record exercising case sensitivity of
  `calculate_relevance`. -/
def sampleRecord : Patent :=
  ⟨"US1", "Battery", "", "Active", "", 0, "", "", none⟩

/-- A concrete Lens.org hit whose publication date parses to the year 0. -/
def zeroYearRec : LensRec :=
  ⟨some "US1", some "US", some "Widget", some "Things", none, some "0000-01-01"⟩

/-- A concrete enriched record with every field populated. -/
def sampleEnriched : EnrichedPatent :=
  ⟨⟨"US1", "T", "A", "Active", "u", 0, "s", "2015-08-11", some 2015⟩, "US", some 2015⟩

/-! ### Shared helper lemmas -/

/-- The fallback list, rescored or not, is never empty, so the early
  return of `/analyze` for an empty source is unreachable. -/
theorem analyzeSource_isEmpty (req : ProjectRequest) (live : List Patent) :
    (analyzeSource req live).isEmpty = false := by
  cases live with
  | nil => rfl
  | cons a t => rfl

/-- `/analyze` always takes its main branch. -/
theorem analyze_eq_main (req : ProjectRequest) (pr : Params) (live : List Patent) :
    analyze req pr live = analyzeMain req pr (analyzeSource req live) := by
  simp [analyze, analyzeSource_isEmpty]

/-- The `patents` slice of the response never exceeds `limit`. -/
theorem patents_length_le (req : ProjectRequest) (pr : Params) (live : List Patent) :
    (analyze req pr live).patents.length ≤ pr.limit := by
  rw [analyze_eq_main]
  unfold analyzeMain
  simp only [List.length_map]
  exact List.length_take_le _ _

/-! ### Claim C1 -/

/-- Claim C1 counterexample: `calculate_relevance` is NOT case-insensitive
  in the keywords.  For the record with title `"Battery"` and the keyword
  list `["Battery"]` the code returns `0` (the keyword is compared
  verbatim against the lowered text), while the claimed case-insensitive
  formula gives `1`. -/
theorem calculate_relevance_not_case_insensitive :
    calculate_relevance sampleRecord ["Battery"]
      ≠ spec_relevance sampleRecord ["Battery"] := by
  have h1 : kwMatchCount sampleRecord ["Battery"] = 0 := by decide
  have h2 : List.countP
      (fun kw => strContains
        (pyLower (sampleRecord.title ++ " " ++ sampleRecord.abstract)) (pyLower kw))
      ["Battery"] = 1 := by decide
  unfold calculate_relevance spec_relevance
  rw [h1, h2]
  norm_num

/-- Claim C1 (amended): `calculate_relevance` equals (count of keywords
  occurring verbatim as substrings of the LOWERCASED title-space-abstract)
  divided by `max(keyword count, 1)`; the clamp never binds, the score is
  always in `[0,1]`, and whenever every keyword is already lowercase — as
  all keywords produced by `extract_keywords` are — the value coincides
  with the claimed case-insensitive formula. -/
theorem calculate_relevance_formula (p : Patent) (kws : List String) :
    calculate_relevance p kws = (kwMatchCount p kws : ℚ) / (max kws.length 1 : ℚ)
    ∧ 0 ≤ calculate_relevance p kws
    ∧ calculate_relevance p kws ≤ 1
    ∧ ((∀ kw ∈ kws, pyLower kw = kw) →
        calculate_relevance p kws = spec_relevance p kws) := by
  have hden : (0 : ℚ) < (max kws.length 1 : ℚ) := by
    have h1 : (1 : ℕ) ≤ max kws.length 1 := Nat.le_max_right _ _
    exact_mod_cast Nat.lt_of_lt_of_le Nat.zero_lt_one h1
  have hcnt : kwMatchCount p kws ≤ max kws.length 1 :=
    Nat.le_trans (List.countP_le_length _) (Nat.le_max_left _ _)
  have hle1 : (kwMatchCount p kws : ℚ) / (max kws.length 1 : ℚ) ≤ 1 := by
    rw [div_le_one hden]
    exact_mod_cast hcnt
  have h0 : (0 : ℚ) ≤ (kwMatchCount p kws : ℚ) / (max kws.length 1 : ℚ) :=
    div_nonneg (Nat.cast_nonneg _) hden.le
  refine ⟨min_eq_left hle1, le_min h0 zero_le_one, min_le_right _ _, ?_⟩
  intro hlow
  have hc : List.countP
      (fun kw => strContains (pyLower (p.title ++ " " ++ p.abstract)) kw) kws
      = List.countP
      (fun kw => strContains (pyLower (p.title ++ " " ++ p.abstract)) (pyLower kw)) kws := by
    refine List.countP_congr (fun kw hkw => ?_)
    rw [hlow kw hkw]
  unfold calculate_relevance spec_relevance kwMatchCount
  rw [hc]
  exact (max_eq_right (le_min (div_nonneg (Nat.cast_nonneg _) hden.le) zero_le_one)).symm

/-- Witness for the lowercase-keyword hypothesis of
  `calculate_relevance_formula`, at the keyword list `["battery"]`. -/
theorem calculate_relevance_formula_witness :
    calculate_relevance sampleRecord ["battery"]
      = spec_relevance sampleRecord ["battery"] :=
  (calculate_relevance_formula sampleRecord ["battery"]).2.2.2 (by decide)

/-! ### Claim C3 -/

/-- Claim C3 counterexample: `extract_keywords` truncates to 10 terms, not
  5.  Six distinct non-stop-words survive, so the output has length 6. -/
theorem extract_keywords_more_than_five :
    ¬ ((extract_keywords "alpha bravo charlie delta echoes foxtrot").length ≤ 5) := by
  decide

/-- Claim C3 (amended): for every input text the extractor returns an
  ordered sequence of at most TEN terms, each a nonempty all-lowercase
  word. -/
theorem extract_keywords_shape (s : String) :
    (extract_keywords s).length ≤ 10 ∧
    ∀ w ∈ extract_keywords s, w ≠ "" ∧ ∀ c ∈ w.data, 'a' ≤ c ∧ c ≤ 'z' := by
  constructor
  · exact List.length_take_le _ _
  · intro w hw
    unfold extract_keywords at hw
    have h1 := List.mem_of_mem_take hw
    rw [List.mem_dedup] at h1
    have h2 := List.mem_of_mem_filter h1
    rw [List.mem_map] at h2
    obtain ⟨r, hr, hweq⟩ := h2
    rw [List.mem_filter] at hr
    have h3 : 3 ≤ r.length ∧ r.all isLowerAZ := by
      have hb := hr.2
      simp only [Bool.and_eq_true, decide_eq_true_eq] at hb
      exact ⟨hb.1, hb.2⟩
    constructor
    · intro hemp
      have hdata : w.data = r := by rw [← hweq]
      rw [hemp] at hdata
      have hlen : r.length = 0 := by rw [← hdata]; rfl
      omega
    · intro c hc
      have hdata : w.data = r := by rw [← hweq]
      rw [hdata] at hc
      have hall := List.all_eq_true.mp h3.2 c hc
      unfold isLowerAZ at hall
      simp only [Bool.and_eq_true, decide_eq_true_eq] at hall
      exact hall

/-! ### Claim C4 -/

/-- Claim C4 counterexample: for the empty description the extractor
  returns the EMPTY list — there is no hardcoded default keyword set in
  the code. -/
theorem extract_keywords_empty : extract_keywords "" = [] := by decide

/-- Claim C4 (amended): for the empty description the extractor returns
  `[]`, and `/analyze` still returns a well-formed envelope (it never
  errors): `key_concepts` is empty, the returned slice respects `limit`,
  and the pagination total agrees with `total_patents_found`. -/
theorem analyze_empty_description :
    extract_keywords "" = [] ∧
    ∀ (f : String) (pr : Params) (live : List Patent),
      (analyze ⟨"", f⟩ pr live).key_concepts = [] ∧
      (analyze ⟨"", f⟩ pr live).patents.length ≤ pr.limit ∧
      (analyze ⟨"", f⟩ pr live).pagination.total
        = (analyze ⟨"", f⟩ pr live).total_patents_found := by
  refine ⟨by decide, fun f pr live => ?_⟩
  refine ⟨?_, patents_length_le _ _ _, ?_⟩
  · rw [analyze_eq_main]
    show extract_keywords "" = []
    decide
  · rw [analyze_eq_main]
    rfl

/-! ### More shared helper lemmas -/

/-- The pagination object of the main branch, spelled out. -/
theorem analyzeMain_pagination (req : ProjectRequest) (pr : Params) (source : List Patent) :
    (analyzeMain req pr source).pagination =
      ⟨pr.limit, pr.offset,
        (if pr.offset + pr.limit < (sortStep pr.sort (filteredPats req pr source)).length
          then some (pr.offset + pr.limit) else none),
        (if pr.limit ≤ pr.offset then some (pr.offset - pr.limit) else none),
        (sortStep pr.sort (filteredPats req pr source)).length⟩ := rfl

/-- The savings string of the main branch, spelled out. -/
theorem analyzeMain_savings (req : ProjectRequest) (pr : Params) (source : List Patent) :
    (analyzeMain req pr source).estimated_savings =
      "£" ++ commaFormat
        ((sortStep pr.sort (filteredPats req pr source)).countP
          (fun p => strContains p.status "Expired") * 25000) := rfl

/-- Every branch of the sort step permutes its input. -/
theorem sortStep_perm (s : String) (l : List EnrichedPatent) : List.Perm (sortStep s l) l := by
  unfold sortStep
  split
  · exact List.mergeSort_perm _ _
  · split
    · exact List.mergeSort_perm _ _
    · split
      · exact List.mergeSort_perm _ _
      · split
        · exact List.mergeSort_perm _ _
        · exact List.Perm.refl _

/-- The savings figure is computed over the filtered, UNpaginated set. -/
theorem analyze_savings_eq (req : ProjectRequest) (pr : Params) (live : List Patent) :
    (analyze req pr live).estimated_savings
      = "£" ++ commaFormat
          ((filteredPats req pr (analyzeSource req live)).countP
            (fun p => strContains p.status "Expired") * 25000) := by
  rw [analyze_eq_main, analyzeMain_savings]
  rw [List.Perm.countP_eq _ (sortStep_perm pr.sort _)]

/-! ### Claim C2 -/

/-- Claim C2 counterexample: at `offset = 1`, `limit = 2` the response has
  `prev_offset = None` although `offset ≠ 0` (the code tests
  `offset >= limit`, not `offset == 0`). -/
theorem prev_offset_not_iff_offset_zero :
    ¬ (((analyze ⟨"x", "all"⟩ ⟨2, 1, 0, "", 0, ""⟩ []).pagination.prev_offset = none)
        ↔ ((analyze ⟨"x", "all"⟩ ⟨2, 1, 0, "", 0, ""⟩ []).pagination.offset = 0)) := by
  decide

/-- Claim C2 (amended): the returned `patents` list has length at most
  `limit`; `next_offset` is null iff `offset + limit ≥ total`; and
  `prev_offset` is null iff `offset < limit` (in particular it is null at
  `offset = 0`, since FastAPI enforces `limit ≥ 1`, but it is also null
  whenever `0 < offset < limit`). -/
theorem pagination_invariants (req : ProjectRequest) (pr : Params) (live : List Patent) :
    (analyze req pr live).patents.length ≤ pr.limit ∧
    ((analyze req pr live).pagination.next_offset = none ↔
      (analyze req pr live).pagination.total ≤ pr.offset + pr.limit) ∧
    ((analyze req pr live).pagination.prev_offset = none ↔ pr.offset < pr.limit) := by
  refine ⟨patents_length_le _ _ _, ?_, ?_⟩
  · rw [analyze_eq_main, analyzeMain_pagination]
    dsimp only
    split
    · next h => simp; omega
    · next h => simp; omega
  · rw [analyze_eq_main, analyzeMain_pagination]
    dsimp only
    split
    · next h => simp; omega
    · next h => simp; omega

/-! ### Claim C6 -/

/-- Claim C6 counterexample: on the live-fetch path a publication date of
  `"0000-01-01"` parses to the year 0; the year is present and
  `2026 - 0 ≥ 20`, yet Python truthiness (`if year and ...`) classifies
  the record `"Active"`. -/
theorem live_status_zero_year :
    (mapLensRec [] 2026 zeroYearRec).year = some 0 ∧
    (20 ≤ (2026 : Int) - 0) ∧
    (mapLensRec [] 2026 zeroYearRec).status = "Active" := by
  refine ⟨by decide, by decide, by decide⟩

/-- `determine_status` factored through the year it inspects. -/
theorem determine_status_eq (p : Patent) (y : Int) :
    determine_status p y = (match statusYear p with
      | some n => if 20 ≤ y - n then "Expired - Free to Use" else "Active"
      | none => "Active") := by
  unfold determine_status statusYear
  by_cases hd : p.patent_date ≠ ""
  · rw [if_pos hd, if_pos hd]
  · rw [if_neg hd, if_neg hd]

/-- Claim C6 (amended): `determine_status` yields `"Expired - Free to
  Use"` exactly when a year is present (nonempty `patent_date` whose
  leading segment parses) and `current_year − year ≥ 20`, and `"Active"`
  otherwise; the inline classifier of the live-fetch path additionally
  requires the year to be nonzero (Python truthiness), and otherwise
  follows the same rule. -/
theorem status_rule :
    (∀ (p : Patent) (y : Int),
      (determine_status p y = "Expired - Free to Use" ↔
        (∃ n, statusYear p = some n ∧ 20 ≤ y - n)) ∧
      (determine_status p y = "Expired - Free to Use" ∨ determine_status p y = "Active")) ∧
    (∀ (yr : Option Int) (y : Int),
      liveStatus yr y = "Expired - Free to Use" ↔
        (∃ n, yr = some n ∧ n ≠ 0 ∧ 20 ≤ y - n)) := by
  constructor
  · intro p y
    rw [determine_status_eq]
    cases hp : statusYear p with
    | some n =>
      dsimp only
      by_cases hy : 20 ≤ y - n
      · rw [if_pos hy]
        exact ⟨⟨fun _ => ⟨n, rfl, hy⟩, fun _ => rfl⟩, Or.inl rfl⟩
      · rw [if_neg hy]
        refine ⟨⟨fun h => absurd h (by decide), ?_⟩, Or.inr rfl⟩
        rintro ⟨n1, hn1, hy1⟩
        injection hn1 with h2
        subst h2
        exact absurd hy1 hy
    | none =>
      dsimp only
      refine ⟨⟨fun h => absurd h (by decide), ?_⟩, Or.inr rfl⟩
      rintro ⟨n1, hn1, -⟩
      cases hn1
  · intro yr y
    cases yr with
    | none =>
      unfold liveStatus
      dsimp only
      refine ⟨fun h => absurd h (by decide), ?_⟩
      rintro ⟨n1, hn1, -⟩
      cases hn1
    | some n =>
      unfold liveStatus
      dsimp only
      by_cases hc : n ≠ 0 ∧ 20 ≤ y - n
      · rw [if_pos hc]
        exact ⟨fun _ => ⟨n, rfl, hc.1, hc.2⟩, fun _ => rfl⟩
      · rw [if_neg hc]
        refine ⟨fun h => absurd h (by decide), ?_⟩
        rintro ⟨n1, hn1, h0, hy1⟩
        injection hn1 with h2
        subst h2
        exact absurd ⟨h0, hy1⟩ hc

/-! ### Claim C8 -/

/-- Claim C8: `estimated_savings` equals the count of records whose
  status contains `"Expired"` in the filtered-but-unpaginated set,
  multiplied by the fixed constant £25,000 per patent, rendered with
  thousands separators (`commaFormat` embeds Python's `f"{n:,}"`). -/
theorem estimated_savings_formula (req : ProjectRequest) (pr : Params) (live : List Patent) :
    (analyze req pr live).estimated_savings
      = "£" ++ commaFormat
          ((filteredPats req pr (analyzeSource req live)).countP
            (fun p => strContains p.status "Expired") * 25000) :=
  analyze_savings_eq req pr live

/-! ### Claim C5 -/

/-- Claim C5: every failure outcome of the external call (exception,
  non-200 status, malformed payload, zero hits) makes the provider return
  `[]` — it never raises, being a total function — and `/analyze` then
  degrades to the curated fallback list of 19 ≥ 10 records, each with its
  relevance score recomputed from the current query keywords (the static
  scores are discarded). -/
theorem fallback_on_failure (q d f : String) (y : Int) :
    fetch_live_patents .error q y = [] ∧
    fetch_live_patents .non200 q y = [] ∧
    fetch_live_patents .malformed q y = [] ∧
    fetch_live_patents (.ok []) q y = [] ∧
    analyzeSource ⟨d, f⟩ [] = rescoreFallback d ∧
    10 ≤ get_fallback_patents.length ∧
    ∀ p ∈ analyzeSource ⟨d, f⟩ [], ∃ p0 ∈ get_fallback_patents,
      p = { p0 with relevance_score := calculate_relevance p0 (extract_keywords d) } := by
  refine ⟨rfl, rfl, rfl, rfl, rfl, by decide, ?_⟩
  intro p hp
  have hp2 : p ∈ rescoreFallback d := hp
  unfold rescoreFallback at hp2
  rw [List.mem_map] at hp2
  obtain ⟨p0, hp0, hpe⟩ := hp2
  exact ⟨p0, hp0, hpe.symm⟩

/-! ### Claim C10 -/

/-- Every record of the curated fallback list carries one of the two
  status literals. -/
theorem fallback_statuses :
    ∀ p ∈ get_fallback_patents,
      p.status = "Active" ∨ p.status = "Expired - Free to Use" := by
  decide

/-- The inline live-path classifier only ever produces the two status
  literals. -/
theorem liveStatus_cases (yr : Option Int) (y : Int) :
    liveStatus yr y = "Active" ∨ liveStatus yr y = "Expired - Free to Use" := by
  unfold liveStatus
  cases yr with
  | none => exact Or.inl rfl
  | some n =>
    dsimp only
    split
    · exact Or.inr rfl
    · exact Or.inl rfl

/-- Whatever the fetch outcome, every source record entering the pipeline
  has status exactly `"Active"` or `"Expired - Free to Use"`. -/
theorem source_statuses (req : ProjectRequest) (o : FetchOutcome) (q : String) (y : Int) :
    ∀ p ∈ analyzeSource req (fetch_live_patents o q y),
      p.status = "Active" ∨ p.status = "Expired - Free to Use" := by
  intro p hp
  unfold analyzeSource at hp
  by_cases he : (fetch_live_patents o q y).isEmpty = true
  · rw [if_pos he] at hp
    unfold rescoreFallback at hp
    rw [List.mem_map] at hp
    obtain ⟨p0, hp0, hpe⟩ := hp
    rw [← hpe]
    exact fallback_statuses p0 hp0
  · rw [if_neg he] at hp
    cases o with
    | error => cases hp
    | non200 => cases hp
    | malformed => cases hp
    | ok recs =>
      unfold fetch_live_patents at hp
      rw [List.mem_map] at hp
      obtain ⟨r, hr, hpe⟩ := hp
      rw [← hpe]
      exact liveStatus_cases _ y

/-- Membership chain: the jurisdiction filter only removes records. -/
theorem mem_of_jurisdictionFiltered {p : EnrichedPatent} {j : String}
    {l : List EnrichedPatent} (h : p ∈ jurisdictionFiltered j l) : p ∈ l := by
  unfold jurisdictionFiltered at h
  split at h
  · exact h
  · exact List.mem_of_mem_filter h

/-- Membership chain: the year filter only removes records. -/
theorem mem_of_yearFiltered {p : EnrichedPatent} {my : ℕ}
    {l : List EnrichedPatent} (h : p ∈ yearFiltered my l) : p ∈ l := by
  unfold yearFiltered at h
  split at h
  · exact List.mem_of_mem_filter h
  · exact h

/-- Under the `"active"` status filter, every surviving record has a
  status containing `"Active"` and comes from the enriched source. -/
theorem mem_filteredPats_active {req : ProjectRequest} {pr : Params}
    {source : List Patent} {p : EnrichedPatent}
    (hf : req.filter = "active") (hp : p ∈ filteredPats req pr source) :
    strContains p.status "Active" = true ∧ ∃ p0 ∈ source, p = enrich p0 := by
  unfold filteredPats at hp
  have h1 := mem_of_jurisdictionFiltered (mem_of_yearFiltered
    (List.mem_of_mem_filter hp))
  unfold statusFiltered at h1
  rw [hf] at h1
  rw [if_neg (by decide), if_pos rfl] at h1
  rw [List.mem_filter] at h1
  obtain ⟨hmem, hact⟩ := h1
  rw [List.mem_map] at hmem
  obtain ⟨p0, hp0, hpe⟩ := hmem
  exact ⟨hact, p0, hp0, hpe.symm⟩

/-- Claim C10: with status filter `"active"`, no record of the filtered
  set has a status containing `"Expired"` — every source record (live
  mapping or fallback catalog) has status exactly `"Active"` or
  `"Expired - Free to Use"` — so the expired count is 0 and
  `estimated_savings` is exactly `"£0"`. -/
theorem active_filter_zero_savings (o : FetchOutcome) (q : String) (y : Int)
    (req : ProjectRequest) (pr : Params) (hf : req.filter = "active") :
    (∀ p ∈ analyzeSource req (fetch_live_patents o q y),
        p.status = "Active" ∨ p.status = "Expired - Free to Use") ∧
    (filteredPats req pr (analyzeSource req (fetch_live_patents o q y))).countP
        (fun p => strContains p.status "Expired") = 0 ∧
    (analyze req pr (fetch_live_patents o q y)).estimated_savings = "£0" := by
  have hcount : (filteredPats req pr (analyzeSource req (fetch_live_patents o q y))).countP
      (fun p => strContains p.status "Expired") = 0 := by
    rw [List.countP_eq_zero]
    intro p hp
    obtain ⟨hact, p0, hp0, hpe⟩ := mem_filteredPats_active hf hp
    have hst : p.status = p0.status := by rw [hpe]; rfl
    rcases source_statuses req o q y p0 hp0 with h | h
    · rw [hst, h]
      decide
    · rw [hst, h] at hact
      exact absurd hact (by decide)
  refine ⟨source_statuses req o q y, hcount, ?_⟩
  rw [analyze_savings_eq, hcount]
  decide

/-- Witness for `active_filter_zero_savings` at a concrete request with
  status filter `"active"` and a failing external call. -/
theorem active_filter_zero_savings_witness :
    ((⟨"battery", "active"⟩ : ProjectRequest).filter = "active") ∧
    (analyze ⟨"battery", "active"⟩ ⟨19, 0, 0, "relevance_desc", 0, ""⟩
        (fetch_live_patents .error "battery" 2026)).estimated_savings = "£0" :=
  ⟨rfl, (active_filter_zero_savings .error "battery" 2026
    ⟨"battery", "active"⟩ ⟨19, 0, 0, "relevance_desc", 0, ""⟩ rfl).2.2⟩

/-! ### Claim C9 -/

/-- `strip_helpers` on a record dict removes exactly the four keys
  `_jurisdiction`, `_year`, `patent_date`, `year`, leaving every other
  entry unchanged and in order. -/
theorem strip_helpers_toDict (e : EnrichedPatent) :
    strip_helpers (toDict e)
      = (toDict e).filter
          (fun kv => !(["_jurisdiction", "_year", "patent_date", "year"].contains kv.1)) := rfl

/-- Claim C9 counterexample: stripping is NOT limited to the two helper
  keys — `patent_date` and `year` (ordinary record fields, present before
  the strip) are also removed, so not every other field survives
  unchanged. -/
theorem strip_helpers_removes_data_fields :
    ¬ (strip_helpers (toDict sampleEnriched)
        = (toDict sampleEnriched).filter
            (fun kv => !(["_jurisdiction", "_year"].contains kv.1))) := by
  decide

/-- Claim C9 (amended): each returned record of the paginated slice is
  its post-scoring/filtering dict with exactly the keys `_jurisdiction`,
  `_year`, `patent_date` and `year` removed; every other field is
  returned unchanged. -/
theorem patents_strip_exactly_four_keys (req : ProjectRequest) (pr : Params)
    (live : List Patent) :
    (analyze req pr live).patents
      = (pagedRecords req pr live).map
          (fun p => (toDict p).filter
            (fun kv => !(["_jurisdiction", "_year", "patent_date", "year"].contains kv.1))) := by
  rw [analyze_eq_main]
  show (pagedRecords req pr live).map (fun p => strip_helpers (toDict p)) = _
  exact List.map_congr_left (fun p _ => strip_helpers_toDict p)

/-! ### Claim C7 -/

/-- Stability of `mergeSort` in filter form: elements all satisfying a
  predicate that forces mutual `le` (such as sharing one sort key) keep
  exactly their pre-sort relative order. -/
theorem mergeSort_filter_key {α : Type} (le : α → α → Bool)
    (htrans : ∀ a b c, le a b = true → le b c = true → le a c = true)
    (htotal : ∀ a b, (le a b || le b a) = true)
    (p : α → Bool) (hkey : ∀ a b, p a = true → p b = true → le a b = true)
    (l : List α) : (l.mergeSort le).filter p = l.filter p := by
  have hpw : (l.filter p).Pairwise (fun a b => le a b = true) :=
    List.pairwise_of_forall_mem_list (fun a ha b hb =>
      hkey a b (List.of_mem_filter ha) (List.of_mem_filter hb))
  have hsub : List.Sublist (l.filter p) (l.mergeSort le) :=
    List.sublist_mergeSort htrans htotal hpw (List.filter_sublist l)
  have h1 : List.Sublist ((l.filter p).filter p) ((l.mergeSort le).filter p) := hsub.filter p
  rw [List.filter_filter] at h1
  have h2 : (fun a => p a && p a) = p := funext (fun a => Bool.and_self _)
  rw [h2] at h1
  have hperm : List.Perm ((l.mergeSort le).filter p) (l.filter p) :=
    (List.mergeSort_perm l le).filter p
  exact (h1.eq_of_length hperm.length_eq.symm).symm

/-- Claim C7: the sort step of `/analyze` is stable — for each sort mode,
  the subsequence of records sharing any one value of the sort key is
  exactly the same, in the same order, before and after sorting — and
  `relevance_desc` yields a non-increasing score sequence while
  `title_asc` yields a non-decreasing sequence of lowercased titles. -/
theorem sortStep_stable_and_sorted (l : List EnrichedPatent) :
    (∀ q : ℚ, (sortStep "relevance_desc" l).filter (fun p => decide (p.relevance_score = q))
        = l.filter (fun p => decide (p.relevance_score = q))) ∧
    (∀ q : ℚ, (sortStep "relevance_asc" l).filter (fun p => decide (p.relevance_score = q))
        = l.filter (fun p => decide (p.relevance_score = q))) ∧
    (∀ t : String, (sortStep "title_asc" l).filter (fun p => decide (pyLower p.title = t))
        = l.filter (fun p => decide (pyLower p.title = t))) ∧
    (∀ t : String, (sortStep "title_desc" l).filter (fun p => decide (pyLower p.title = t))
        = l.filter (fun p => decide (pyLower p.title = t))) ∧
    (sortStep "relevance_desc" l).Pairwise
      (fun a b => b.relevance_score ≤ a.relevance_score) ∧
    (sortStep "title_asc" l).Pairwise
      (fun a b => pyLower a.title ≤ pyLower b.title) := by
  have hdesc : ∀ (a b c : EnrichedPatent),
      decide (b.relevance_score ≤ a.relevance_score) = true →
      decide (c.relevance_score ≤ b.relevance_score) = true →
      decide (c.relevance_score ≤ a.relevance_score) = true := by
    intro a b c hab hbc
    simp only [decide_eq_true_eq] at *
    exact le_trans hbc hab
  have hdesct : ∀ (a b : EnrichedPatent),
      (decide (b.relevance_score ≤ a.relevance_score)
        || decide (a.relevance_score ≤ b.relevance_score)) = true := by
    intro a b
    simp only [Bool.or_eq_true, decide_eq_true_eq]
    exact le_total _ _
  have hasc : ∀ (a b c : EnrichedPatent),
      decide (a.relevance_score ≤ b.relevance_score) = true →
      decide (b.relevance_score ≤ c.relevance_score) = true →
      decide (a.relevance_score ≤ c.relevance_score) = true := by
    intro a b c hab hbc
    simp only [decide_eq_true_eq] at *
    exact le_trans hab hbc
  have hasct : ∀ (a b : EnrichedPatent),
      (decide (a.relevance_score ≤ b.relevance_score)
        || decide (b.relevance_score ≤ a.relevance_score)) = true := by
    intro a b
    simp only [Bool.or_eq_true, decide_eq_true_eq]
    exact le_total _ _
  have htasc : ∀ (a b c : EnrichedPatent),
      decide (pyLower a.title ≤ pyLower b.title) = true →
      decide (pyLower b.title ≤ pyLower c.title) = true →
      decide (pyLower a.title ≤ pyLower c.title) = true := by
    intro a b c hab hbc
    simp only [decide_eq_true_eq] at *
    exact le_trans hab hbc
  have htasct : ∀ (a b : EnrichedPatent),
      (decide (pyLower a.title ≤ pyLower b.title)
        || decide (pyLower b.title ≤ pyLower a.title)) = true := by
    intro a b
    simp only [Bool.or_eq_true, decide_eq_true_eq]
    exact le_total _ _
  have htdesc : ∀ (a b c : EnrichedPatent),
      decide (pyLower b.title ≤ pyLower a.title) = true →
      decide (pyLower c.title ≤ pyLower b.title) = true →
      decide (pyLower c.title ≤ pyLower a.title) = true := by
    intro a b c hab hbc
    simp only [decide_eq_true_eq] at *
    exact le_trans hbc hab
  have htdesct : ∀ (a b : EnrichedPatent),
      (decide (pyLower b.title ≤ pyLower a.title)
        || decide (pyLower a.title ≤ pyLower b.title)) = true := by
    intro a b
    simp only [Bool.or_eq_true, decide_eq_true_eq]
    exact le_total _ _
  refine ⟨?_, ?_, ?_, ?_, ?_, ?_⟩
  · intro q
    show (l.mergeSort (fun a b => decide (b.relevance_score ≤ a.relevance_score))).filter _ = _
    refine mergeSort_filter_key _ hdesc hdesct _ (fun a b ha hb => ?_) l
    simp only [decide_eq_true_eq] at *
    rw [ha, hb]
  · intro q
    show (l.mergeSort (fun a b => decide (a.relevance_score ≤ b.relevance_score))).filter _ = _
    refine mergeSort_filter_key _ hasc hasct _ (fun a b ha hb => ?_) l
    simp only [decide_eq_true_eq] at *
    rw [ha, hb]
  · intro t
    show (l.mergeSort (fun a b => decide (pyLower a.title ≤ pyLower b.title))).filter _ = _
    refine mergeSort_filter_key _ htasc htasct _ (fun a b ha hb => ?_) l
    simp only [decide_eq_true_eq] at *
    rw [ha, hb]
  · intro t
    show (l.mergeSort (fun a b => decide (pyLower b.title ≤ pyLower a.title))).filter _ = _
    refine mergeSort_filter_key _ htdesc htdesct _ (fun a b ha hb => ?_) l
    simp only [decide_eq_true_eq] at *
    rw [ha, hb]
  · have hs := List.sorted_mergeSort hdesc hdesct l
    show (l.mergeSort (fun a b => decide (b.relevance_score ≤ a.relevance_score))).Pairwise _
    exact hs.imp (fun h => of_decide_eq_true h)
  · have hs := List.sorted_mergeSort htasc htasct l
    show (l.mergeSort (fun a b => decide (pyLower a.title ≤ pyLower b.title))).Pairwise _
    exact hs.imp (fun h => of_decide_eq_true h)

end PatentIntel
